import Mathlib

/-!
Shallow embedding of the VkPrimer repository (three C++ translation units:
`src/app/main_rt.cpp`, `src/apps/03_rt_lsi/main.cpp`, `src/app/main.cpp`).

The host program drives an external Vulkan device.  We embed the host-side
logic as pure Lean functions that return, besides their C++ return values,
the ordered list of Vulkan-relevant actions (`Ev`) they perform.  Device
behaviour that the host merely consumes (reported build sizes, buffer
device addresses, the hit counter written by the shaders, the reported
shader-group handle size and alignment) is an `Oracle` parameter, so every
theorem below is quantified over what the device may answer.

Vulkan handles are modelled as natural numbers, with `0` playing the role
of `VK_NULL_HANDLE`; fresh handles are drawn from a counter that each
creating function threads through.  The models follow the non-failing path
of the source: a `VK_CHECK` failure calls `std::exit(1)` and produces no
further events, so it never reaches any of the code the claims are about.
-/

set_option linter.unusedVariables false
set_option maxHeartbeats 1000000

namespace VkPrimer

/-! ### Vulkan constants used by the sources (values from the Vulkan headers) -/

/-- `VK_BUFFER_USAGE_TRANSFER_SRC_BIT` -/
def USAGE_TRANSFER_SRC : Nat := 0x1
/-- `VK_BUFFER_USAGE_TRANSFER_DST_BIT` -/
def USAGE_TRANSFER_DST : Nat := 0x2
/-- `VK_BUFFER_USAGE_STORAGE_BUFFER_BIT` -/
def USAGE_STORAGE_BUFFER : Nat := 0x20
/-- `VK_BUFFER_USAGE_SHADER_BINDING_TABLE_BIT_KHR` -/
def USAGE_SBT : Nat := 0x400
/-- `VK_BUFFER_USAGE_SHADER_DEVICE_ADDRESS_BIT` (bit 17) -/
def USAGE_SHADER_DEVICE_ADDRESS : Nat := 0x20000
/-- `VK_BUFFER_USAGE_ACCELERATION_STRUCTURE_BUILD_INPUT_READ_ONLY_BIT_KHR` -/
def USAGE_AS_BUILD_INPUT : Nat := 0x80000
/-- `VK_BUFFER_USAGE_ACCELERATION_STRUCTURE_STORAGE_BIT_KHR` -/
def USAGE_AS_STORAGE : Nat := 0x100000

/-- `VK_MEMORY_PROPERTY_DEVICE_LOCAL_BIT` -/
def MEM_DEVICE_LOCAL : Nat := 0x1
/-- `VK_MEMORY_PROPERTY_HOST_VISIBLE_BIT` -/
def MEM_HOST_VISIBLE : Nat := 0x2
/-- `VK_MEMORY_PROPERTY_HOST_COHERENT_BIT` -/
def MEM_HOST_COHERENT : Nat := 0x4
/-- `VK_MEMORY_ALLOCATE_DEVICE_ADDRESS_BIT` -/
def ALLOC_DEVICE_ADDRESS : Nat := 0x2

/-- `VK_GEOMETRY_TYPE_TRIANGLES_KHR` -/
def GEOM_TRIANGLES : Nat := 0
/-- `VK_GEOMETRY_TYPE_AABBS_KHR` -/
def GEOM_AABBS : Nat := 1
/-- `VK_GEOMETRY_TYPE_INSTANCES_KHR` -/
def GEOM_INSTANCES : Nat := 2
/-- `VK_GEOMETRY_INSTANCE_TRIANGLE_FACING_CULL_DISABLE_BIT_KHR` -/
def INST_CULL_DISABLE : Nat := 0x1

/-- `VK_PIPELINE_STAGE_ACCELERATION_STRUCTURE_BUILD_BIT_KHR` -/
def STAGE_AS_BUILD : Nat := 0x02000000
/-- `VK_PIPELINE_STAGE_RAY_TRACING_SHADER_BIT_KHR` -/
def STAGE_RT_SHADER : Nat := 0x00200000
/-- `VK_ACCESS_ACCELERATION_STRUCTURE_WRITE_BIT_KHR` -/
def ACCESS_AS_WRITE : Nat := 0x00400000
/-- `VK_ACCESS_ACCELERATION_STRUCTURE_READ_BIT_KHR` -/
def ACCESS_AS_READ : Nat := 0x00200000

/-! ### Events: the Vulkan-relevant actions a host function performs, in order -/

/-- One host-side action.  Handles are `Nat` (0 = `VK_NULL_HANDLE`). -/
inductive Ev where
  /-- `vkCreateBuffer` with the final `VkBufferCreateInfo::usage` (after the
  `deviceAddress` capability bit is or-ed in) and the requested memory
  properties / `deviceAddress` argument of `createBuffer`. -/
  | createBuf (buf size usage memProps : Nat) (devAddr : Bool)
  /-- `vkAllocateMemory`; `allocFlags` is `VkMemoryAllocateFlagsInfo::flags`
  (0 when no flags structure is chained). -/
  | allocMem (mem allocFlags : Nat)
  /-- `vkBindBufferMemory` -/
  | bindBufMem (buf mem : Nat)
  /-- `vkGetBufferDeviceAddress` -/
  | getBufAddr (buf : Nat)
  /-- `vkDestroyBuffer` -/
  | destroyBuf (buf : Nat)
  /-- `vkFreeMemory` -/
  | freeMem (mem : Nat)
  /-- `vkMapMemory` of a buffer's memory -/
  | mapBuf (buf : Nat)
  /-- `vkUnmapMemory` of a buffer's memory -/
  | unmapBuf (buf : Nat)
  /-- a host `memcpy`/store into the currently mapped buffer -/
  | hostWrite (buf : Nat)
  /-- writing one `VkAccelerationStructureInstanceKHR` record into the mapped
  instance buffer (its mask, flags and BLAS reference are recorded) -/
  | hostWriteInst (buf mask flags ref : Nat)
  /-- a host read from the currently mapped buffer -/
  | hostRead (buf : Nat)
  /-- a host read of record `idx` from the currently mapped buffer -/
  | hostReadRecord (buf idx : Nat)
  /-- filling in one `VkAccelerationStructureGeometryKHR` (type and flags) -/
  | describeGeom (gtype gflags : Nat)
  /-- `vkGetAccelerationStructureBuildSizesKHR` for `primCount` primitives -/
  | querySizes (primCount : Nat)
  /-- `vkCreateAccelerationStructureKHR` of given size, bound to buffer `buf` -/
  | createAS (asId size buf : Nat)
  /-- `vkCmdBuildAccelerationStructuresKHR` writing `asId`, scratch at `scratchAddr` -/
  | cmdBuildAS (asId scratchAddr : Nat)
  /-- `vkCmdPipelineBarrier` with one `VkMemoryBarrier` -/
  | cmdBarrier (srcStage srcAccess dstStage dstAccess : Nat)
  /-- `cmdTransitionImage` (image layout transition pipeline barrier) -/
  | cmdImgTransition (img oldL newL : Nat)
  /-- `vkCmdTraceRaysKHR` with the given launch extent -/
  | cmdTraceRays (w h d : Nat)
  /-- `vkCmdCopyImageToBuffer` into buffer `buf` -/
  | cmdCopyImageToBuffer (img buf : Nat)
  /-- `vkBeginCommandBuffer` -/
  | beginCmd
  /-- `vkEndCommandBuffer` -/
  | endCmd
  /-- `vkQueueSubmit` -/
  | submit
  /-- `vkQueueWaitIdle` -/
  | waitIdle
  /-- `vkGetAccelerationStructureDeviceAddressKHR` -/
  | getASAddr (asId : Nat)
  /-- `vkDestroyAccelerationStructureKHR` -/
  | destroyAS (asId : Nat)
  /-- `vkCreateImage` (+ its memory allocation, binding and view creation) -/
  | createImg (img : Nat)
  /-- `vkDestroyImageView` -/
  | destroyImgView (view : Nat)
  /-- `vkDestroyImage` -/
  | destroyImg (img : Nat)
  /-- `vkGetRayTracingShaderGroupHandlesKHR` for `groupCount` groups,
  `dataSize` bytes -/
  | getHandles (groupCount dataSize : Nat)
deriving DecidableEq

/-! ### Data model -/

/-- `struct Buffer` (both RT files declare the identical struct). -/
structure Buffer where
  buf : Nat := 0
  mem : Nat := 0
  addr : Nat := 0
  size : Nat := 0
deriving DecidableEq

/-- `struct Image` (src/app/main_rt.cpp). -/
structure Image where
  img : Nat := 0
  mem : Nat := 0
  view : Nat := 0
  format : Nat := 0
  w : Nat := 0
  h : Nat := 0
deriving DecidableEq

/-- `struct Accel` (one BLAS or TLAS node). -/
structure Accel where
  as : Nat := 0
  backing : Buffer := {}
  addr : Nat := 0
deriving DecidableEq

/-- The two sizes reported by `vkGetAccelerationStructureBuildSizesKHR`. -/
structure SizeInfo where
  accelerationStructureSize : Nat
  buildScratchSize : Nat
deriving DecidableEq

/-- Everything the external device answers to the host during a run. -/
structure Oracle where
  /-- device address reported for a buffer handle (`vkGetBufferDeviceAddress`) -/
  bufAddr : Nat → Nat
  /-- device address reported for an acceleration-structure handle -/
  asAddr : Nat → Nat
  /-- build sizes reported for the run's BLAS build -/
  blasSizes : SizeInfo
  /-- build sizes reported for the run's TLAS build -/
  tlasSizes : SizeInfo
  /-- `shaderGroupHandleSize` from the RT pipeline properties -/
  handleSize : Nat
  /-- `shaderGroupHandleAlignment` from the RT pipeline properties -/
  handleAlign : Nat
  /-- the value the device left in the hit-counter buffer (03_rt_lsi) -/
  counter : Nat

/-! ### Resource allocator (identical in src/app/main_rt.cpp:55-122 and
src/apps/03_rt_lsi/main.cpp:42-107) -/

/-- `findMemoryType` inner loop, carrying the running index `i`.
`types` is the list of `VkMemoryType::propertyFlags` for indices `i, i+1, …`
(`mp.memoryTypes[0..memoryTypeCount)` when started at `i = 0`).
The C++ test is `(typeBits & (1u << i)) && (propertyFlags & req) == req`. -/
def findMemoryTypeGo (types : List Nat) (typeBits req i : Nat) : Option Nat :=
  match types with
  | [] => none
  | t :: ts =>
    if typeBits.testBit i ∧ (t &&& req) = req then some i
    else findMemoryTypeGo ts typeBits req (i + 1)

/-- `findMemoryType` (main_rt.cpp:55, 03_rt_lsi/main.cpp:42, main.cpp:43):
scan memory types in index order, return the first index whose bit is set in
`typeBits` and whose property flags contain `req`; `none` models the fatal
`std::exit(1)` / `assert(false)` when no index qualifies.  (In Vulkan
`memoryTypeCount ≤ 32`, so the C++ `1u << i` shift never overflows.) -/
def findMemoryType (types : List Nat) (typeBits req : Nat) : Option Nat :=
  findMemoryTypeGo types typeBits req 0

/-- `createBuffer` (main_rt.cpp:72-106, 03_rt_lsi/main.cpp:59-93).
`n` is the fresh-handle counter: the buffer handle is `n+1`, its memory
handle `n+2`.  Returns the `Buffer` record, the new counter and the action
trace.  The `vkGetBufferMemoryRequirements` query and the `findMemoryType`
call between creation and allocation touch no resource and are not traced;
the allocation size is the driver-reported requirement, while the buffer
itself is created with the requested `size`. -/
def createBuffer (o : Oracle) (n size usage memProps : Nat)
    (deviceAddress : Bool) : Buffer × Nat × List Ev :=
  let bufId := n + 1
  let memId := n + 2
  let ciUsage := usage ||| (if deviceAddress then USAGE_SHADER_DEVICE_ADDRESS else 0)
  let allocFlags := if deviceAddress then ALLOC_DEVICE_ADDRESS else 0
  let addr := if deviceAddress then o.bufAddr bufId else 0
  ({ buf := bufId, mem := memId, addr := addr, size := size },
   memId,
   [Ev.createBuf bufId size ciUsage memProps deviceAddress,
    Ev.allocMem memId allocFlags,
    Ev.bindBufMem bufId memId]
   ++ (if deviceAddress then [Ev.getBufAddr bufId] else []))

/-- `destroyBuffer` (main_rt.cpp:118-122, 03_rt_lsi/main.cpp:103-107):
destroy handle and free memory only when non-null, then `b = {}`. -/
def destroyBuffer (b : Buffer) : List Ev × Buffer :=
  ((if b.buf ≠ 0 then [Ev.destroyBuf b.buf] else [])
    ++ (if b.mem ≠ 0 then [Ev.freeMem b.mem] else []),
   {})

/-- `createStorageImageRGBA32F` (main_rt.cpp:133-169); handles `n+1` (image),
`n+2` (memory), `n+3` (view); format 109 = `VK_FORMAT_R32G32B32A32_SFLOAT`. -/
def createStorageImageRGBA32F (n w h : Nat) : Image × Nat × List Ev :=
  ({ img := n + 1, mem := n + 2, view := n + 3, format := 109, w := w, h := h },
   n + 3,
   [Ev.createImg (n + 1)])

/-- `destroyImage` (main_rt.cpp:171-176). -/
def destroyImage (im : Image) : List Ev × Image :=
  ((if im.view ≠ 0 then [Ev.destroyImgView im.view] else [])
    ++ (if im.img ≠ 0 then [Ev.destroyImg im.img] else [])
    ++ (if im.mem ≠ 0 then [Ev.freeMem im.mem] else []),
   {})

/-- `destroyAccel` (main_rt.cpp:411-415, 03_rt_lsi/main.cpp:291-295). -/
def destroyAccel (a : Accel) : List Ev × Accel :=
  ((if a.as ≠ 0 then [Ev.destroyAS a.as] else []) ++ (destroyBuffer a.backing).1,
   {})

/-- `submitAndWait` (main_rt.cpp:197-204, 03_rt_lsi/main.cpp:128-135):
end the command buffer, submit it once, wait for the queue to go idle. -/
def submitAndWait : List Ev := [Ev.endCmd, Ev.submit, Ev.waitIdle]

/-! ### Acceleration-structure builders -/

/-- `createBLAS_Triangles` (main_rt.cpp:242-317).  `sizes` are the sizes the
device reports for this geometry/primitive count.  Handle layout from fresh
counter `n`: backing buffer `n+1`/`n+2`, acceleration structure `n+3`,
scratch buffer `n+4`/`n+5`.  Note the source destroys the scratch buffer
right after recording the build (main_rt.cpp:313), while the command buffer
has not been submitted yet. -/
def createBLAS_Triangles (o : Oracle) (sizes : SizeInfo) (n : Nat)
    (vbo : Buffer) (vertexCount vertexStride : Nat) (ibo : Buffer)
    (indexCount : Nat) : Accel × Nat × List Ev :=
  let primCount := indexCount / 3
  let backingR := createBuffer o n sizes.accelerationStructureSize
    USAGE_AS_STORAGE MEM_DEVICE_LOCAL true
  let backing := backingR.1
  let asId := backingR.2.1 + 1
  let scratchR := createBuffer o asId sizes.buildScratchSize
    USAGE_STORAGE_BUFFER MEM_DEVICE_LOCAL true
  let scratch := scratchR.1
  ({ as := asId, backing := backing, addr := o.asAddr asId },
   scratchR.2.1,
   [Ev.describeGeom GEOM_TRIANGLES 0,      -- geom.flags = 0 (allow any-hit), line 260
    Ev.querySizes primCount]               -- line 272
   ++ backingR.2.2                          -- line 276
   ++ [Ev.createAS asId sizes.accelerationStructureSize backing.buf]  -- line 286
   ++ scratchR.2.2                          -- line 288
   ++ [Ev.cmdBuildAS asId scratch.addr,     -- line 301
       Ev.cmdBarrier STAGE_AS_BUILD ACCESS_AS_WRITE STAGE_RT_SHADER ACCESS_AS_READ]
   ++ (destroyBuffer scratch).1             -- line 313 (before any submit)
   ++ [Ev.getASAddr asId])                  -- line 315

/-- `createBLAS_AABBs` (03_rt_lsi/main.cpp:160-213): identical protocol with
AABB geometry, `primCount = aabbCount`; it too destroys the scratch buffer
right after recording the build (line 209). -/
def createBLAS_AABBs (o : Oracle) (sizes : SizeInfo) (n : Nat)
    (aabbBuf : Buffer) (aabbCount : Nat) : Accel × Nat × List Ev :=
  let primCount := aabbCount
  let backingR := createBuffer o n sizes.accelerationStructureSize
    USAGE_AS_STORAGE MEM_DEVICE_LOCAL true
  let backing := backingR.1
  let asId := backingR.2.1 + 1
  let scratchR := createBuffer o asId sizes.buildScratchSize
    USAGE_STORAGE_BUFFER MEM_DEVICE_LOCAL true
  let scratch := scratchR.1
  ({ as := asId, backing := backing, addr := o.asAddr asId },
   scratchR.2.1,
   [Ev.describeGeom GEOM_AABBS 0,          -- geom.flags = 0, line 169
    Ev.querySizes primCount]               -- line 181
   ++ backingR.2.2                          -- line 185
   ++ [Ev.createAS asId sizes.accelerationStructureSize backing.buf]  -- line 193
   ++ scratchR.2.2                          -- line 195
   ++ [Ev.cmdBuildAS asId scratch.addr,     -- line 206
       Ev.cmdBarrier STAGE_AS_BUILD ACCESS_AS_WRITE STAGE_RT_SHADER ACCESS_AS_READ]
   ++ (destroyBuffer scratch).1             -- line 209 (before any submit)
   ++ [Ev.getASAddr asId])                  -- line 211

/-- `createTLAS_OneInstance` (main_rt.cpp:321-409 and, identically,
03_rt_lsi/main.cpp:215-289).  The single instance record has
`mask = 0xFF`, `flags = VK_GEOMETRY_INSTANCE_TRIANGLE_FACING_CULL_DISABLE_BIT_KHR`
and references `blasAddr`; it is uploaded through a 64-byte host-visible
buffer (`sizeof(VkAccelerationStructureInstanceKHR)`).  Handle layout from
`n`: instance buffer `n+1`/`n+2`, backing `n+3`/`n+4`, structure `n+5`,
scratch `n+6`/`n+7`.  Neither the scratch nor the instance buffer is
destroyed here (source comments: they must survive until after the wait). -/
def createTLAS_OneInstance (o : Oracle) (sizes : SizeInfo) (n : Nat)
    (blasAddr : Nat) : Accel × Nat × List Ev :=
  let instBufR := createBuffer o n 64
    (USAGE_AS_BUILD_INPUT ||| USAGE_TRANSFER_DST)
    (MEM_HOST_VISIBLE ||| MEM_HOST_COHERENT) true
  let instBuf := instBufR.1
  let backingR := createBuffer o instBufR.2.1 sizes.accelerationStructureSize
    USAGE_AS_STORAGE MEM_DEVICE_LOCAL true
  let backing := backingR.1
  let asId := backingR.2.1 + 1
  let scratchR := createBuffer o asId sizes.buildScratchSize
    USAGE_STORAGE_BUFFER MEM_DEVICE_LOCAL true
  let scratch := scratchR.1
  ({ as := asId, backing := backing, addr := o.asAddr asId },
   scratchR.2.1,
   instBufR.2.2                             -- line 335
   ++ [Ev.mapBuf instBuf.buf,               -- line 342
       Ev.hostWriteInst instBuf.buf 0xFF INST_CULL_DISABLE blasAddr,
       Ev.unmapBuf instBuf.buf,
       Ev.describeGeom GEOM_INSTANCES 0,    -- line 351 (geom.flags defaulted to 0)
       Ev.querySizes 1]                     -- line 364, primCount = 1
   ++ backingR.2.2                           -- line 368
   ++ [Ev.createAS asId sizes.accelerationStructureSize backing.buf]  -- line 378
   ++ scratchR.2.2                           -- line 380
   ++ [Ev.cmdBuildAS asId scratch.addr,      -- line 393
       Ev.cmdBarrier STAGE_AS_BUILD ACCESS_AS_WRITE STAGE_RT_SHADER ACCESS_AS_READ,
       Ev.getASAddr asId])                   -- line 407

/-! ### Shader-binding-table construction -/

/-- The `alignUp` lambda (main_rt.cpp:854, 03_rt_lsi/main.cpp:779):
`(v + a - 1) & ~(a - 1)` in `uint32_t` arithmetic.  Subtraction and the
bitwise complement are modelled exactly as 32-bit operations:
`x - 1` is `(x + 2^32 - 1) % 2^32` and `~y` is `(2^32 - 1) - y`
(all-ones minus `y` flips exactly the low 32 bits when `y < 2^32`). -/
def alignUp (v a : Nat) : Nat :=
  let am1 := (a + (2 ^ 32 - 1)) % 2 ^ 32
  ((v + am1) % 2 ^ 32) &&& ((2 ^ 32 - 1) - am1)

/-- One iteration of the SBT copy loop (main_rt.cpp:869-870,
03_rt_lsi/main.cpp:792-793): `memcpy(sbtMap + i*stride, handles + i*handleSize,
handleSize)`, modelled on byte-indexed memory. -/
def writeSlot (handles : Nat → Nat) (handleSize stride i : Nat)
    (mem : Nat → Nat) : Nat → Nat :=
  fun p =>
    if i * stride ≤ p ∧ p < i * stride + handleSize then
      handles (i * handleSize + (p - i * stride))
    else mem p

/-- The SBT copy loop for slots `0, …, cnt-1` in ascending order. -/
def copyHandles (handles : Nat → Nat) (handleSize stride : Nat) :
    Nat → (Nat → Nat) → (Nat → Nat)
  | 0, mem => mem
  | cnt + 1, mem =>
    writeSlot handles handleSize stride cnt
      (copyHandles handles handleSize stride cnt mem)

/-- Result of the SBT construction section (main_rt.cpp:852-871,
03_rt_lsi/main.cpp:777-794). -/
structure SBT where
  /-- `handleSizeAligned` -/
  stride : Nat
  /-- size of the `createBuffer` call for the SBT buffer -/
  bufSize : Nat
  /-- memory properties requested for the SBT buffer -/
  memProps : Nat
  /-- `deviceAddress` argument of the SBT `createBuffer` call -/
  devAddr : Bool
  /-- byte count requested from `vkGetRayTracingShaderGroupHandlesKHR`
  (`handles.size()`) -/
  handlesLen : Nat
  /-- SBT buffer bytes after the copy loop -/
  mem : Nat → Nat

/-- The SBT construction: compute the aligned stride, create a host-visible
device-addressable buffer of `groupCount * stride` bytes, fetch all group
handles as one block of `groupCount * handleSize` bytes, copy each handle to
its aligned slot.  `handles j` is byte `j` of the handle block the driver
returned; `init p` is byte `p` of the freshly mapped buffer before the loop. -/
def buildSBT (handleSize handleAlign groupCount : Nat)
    (handles init : Nat → Nat) : SBT :=
  let stride := alignUp handleSize handleAlign
  { stride := stride
    bufSize := groupCount * stride
    memProps := MEM_HOST_VISIBLE ||| MEM_HOST_COHERENT
    devAddr := true
    handlesLen := groupCount * handleSize
    mem := copyHandles handles handleSize stride groupCount init }

/-! ### Shader binary loading -/

/-- Reassembling little-endian 32-bit words from raw bytes, as the
`f.read((char*)out.data(), sz)` into a `std::vector<uint32_t>` does on the
target platform; a trailing chunk shorter than 4 bytes is never reached on
the non-exiting path because the size check has already passed. -/
def toWords : List Nat → List Nat
  | b0 :: b1 :: b2 :: b3 :: rest =>
    (b0 + 2 ^ 8 * b1 + 2 ^ 16 * b2 + 2 ^ 24 * b3) :: toWords rest
  | _ => []

/-- The little-endian bytes of one stored 32-bit word. -/
def bytesOfWord (w : Nat) : List Nat :=
  [w % 2 ^ 8, w / 2 ^ 8 % 2 ^ 8, w / 2 ^ 16 % 2 ^ 8, w / 2 ^ 24 % 2 ^ 8]

/-- Serialising a word list back to its byte stream. -/
def wordsBytes : List Nat → List Nat
  | [] => []
  | w :: ws => bytesOfWord w ++ wordsBytes ws

/-- `loadSpv` (main_rt.cpp:36-53, identically 03_rt_lsi/main.cpp:24-40).
The file system is `none` (file absent / unopenable) or `some bytes`.
`none` as result models the fatal `std::exit(1)`. -/
def loadSpv (file : Option (List Nat)) : Option (List Nat) :=
  match file with
  | none => none                                  -- "Failed to open", exit(1)
  | some bytes =>
    if bytes.length % 4 = 0 then some (toWords bytes)
    else none                                     -- "Bad SPV size", exit(1)

/-- `readSpirvU32` (main.cpp:9-25): same checks via `assert` (`assert(f)`,
`assert(sizeBytes % 4 == 0)`); the `assert(read == sizeBytes)` always holds
for an in-memory file. -/
def readSpirvU32 (file : Option (List Nat)) : Option (List Nat) :=
  match file with
  | none => none                                  -- assert(f) fails
  | some bytes =>
    if bytes.length % 4 = 0 then some (toWords bytes)
    else none                                     -- assert(sizeBytes % 4 == 0) fails

/-! ### The run of src/app/main_rt.cpp (its `main`, lines 586-971)

Device bring-up, descriptor-set, shader-module and pipeline management touch
none of the resources the claims speak about and are not traced; the
`loadSpv` calls are modelled by `loadSpv` above.  The host-visible memory
property pair used throughout is `HOST_VISIBLE | HOST_COHERENT`. -/

/-- `MEM_HOST_VISIBLE ||| MEM_HOST_COHERENT` as requested at every
host-visible `createBuffer` call. -/
def MEM_HOST_VC : Nat := MEM_HOST_VISIBLE ||| MEM_HOST_COHERENT

/-- `VK_IMAGE_LAYOUT_UNDEFINED` -/
def LAYOUT_UNDEFINED : Nat := 0
/-- `VK_IMAGE_LAYOUT_GENERAL` -/
def LAYOUT_GENERAL : Nat := 1
/-- `VK_IMAGE_LAYOUT_TRANSFER_SRC_OPTIMAL` -/
def LAYOUT_TRANSFER_SRC : Nat := 6

/-- Event trace of one run of `main` in src/app/main_rt.cpp.
Scene constants from the source: 9 vertices of 12 bytes (vbo size 108),
9 indices of 4 bytes (ibo size 36), a 5x1 RGBA32F output image, 3 shader
groups, 5 rays, an 80-byte readback buffer (5*1*16).
Handle numbering (fresh counter from 0): vbo 1/2, ibo 3/4, image 5/6/7,
BLAS backing 8/9, BLAS 10, BLAS scratch 11/12, instance buffer 13/14,
TLAS backing 15/16, TLAS 17, TLAS scratch 18/19, SBT 20/21, readback 22/23. -/
def mainRtTrace (o : Oracle) : List Ev :=
  let vboR := createBuffer o 0 108 USAGE_AS_BUILD_INPUT MEM_HOST_VC true      -- line 613
  let vbo := vboR.1
  let iboR := createBuffer o vboR.2.1 36 USAGE_AS_BUILD_INPUT MEM_HOST_VC true -- line 617
  let ibo := iboR.1
  let imR := createStorageImageRGBA32F iboR.2.1 5 1                           -- line 629
  let outIm := imR.1
  let blasR := createBLAS_Triangles o o.blasSizes imR.2.1 vbo 9 12 ibo 9      -- line 638
  let blas := blasR.1
  let tlasR := createTLAS_OneInstance o o.tlasSizes blasR.2.1 blas.addr       -- line 643
  let tlas := tlasR.1
  let sbtR := createBuffer o tlasR.2.1 (3 * alignUp o.handleSize o.handleAlign)
    (USAGE_SBT ||| USAGE_TRANSFER_DST) MEM_HOST_VC true                       -- line 862
  let sbt := sbtR.1
  let readbackR := createBuffer o sbtR.2.1 80 USAGE_TRANSFER_DST MEM_HOST_VC false -- line 904
  let readback := readbackR.1
  vboR.2.2 ++ iboR.2.2
  ++ [Ev.mapBuf vbo.buf, Ev.hostWrite vbo.buf, Ev.unmapBuf vbo.buf,           -- line 622
      Ev.mapBuf ibo.buf, Ev.hostWrite ibo.buf, Ev.unmapBuf ibo.buf]           -- line 624
  ++ imR.2.2
  ++ [Ev.beginCmd]                                                            -- line 635
  ++ blasR.2.2
  ++ tlasR.2.2
  ++ [Ev.cmdImgTransition outIm.img LAYOUT_UNDEFINED LAYOUT_GENERAL]          -- line 648
  ++ [Ev.getHandles 3 (3 * o.handleSize)]                                     -- line 859
  ++ sbtR.2.2
  ++ [Ev.mapBuf sbt.buf,                                                      -- line 868
      Ev.hostWrite sbt.buf, Ev.hostWrite sbt.buf, Ev.hostWrite sbt.buf,       -- loop 869
      Ev.unmapBuf sbt.buf]
  ++ [Ev.cmdTraceRays 5 1 1]                                                  -- line 896
  ++ readbackR.2.2
  ++ [Ev.cmdImgTransition outIm.img LAYOUT_GENERAL LAYOUT_TRANSFER_SRC,       -- line 910
      Ev.cmdCopyImageToBuffer outIm.img readback.buf]                         -- line 917
  ++ submitAndWait                                                            -- line 919
  ++ [Ev.mapBuf readback.buf,                                                 -- line 922
      Ev.hostReadRecord readback.buf 0, Ev.hostReadRecord readback.buf 1,     -- loop 935
      Ev.hostReadRecord readback.buf 2, Ev.hostReadRecord readback.buf 3,
      Ev.hostReadRecord readback.buf 4,
      Ev.unmapBuf readback.buf]                                               -- line 943
  ++ (destroyBuffer readback).1 ++ (destroyBuffer sbt).1                      -- lines 946-947
  ++ (destroyAccel tlas).1 ++ (destroyAccel blas).1                           -- lines 958-959
  ++ (destroyImage outIm).1                                                   -- line 961
  ++ (destroyBuffer vbo).1 ++ (destroyBuffer ibo).1                           -- lines 962-963

/-- Buffer handle of the image-readback buffer in `mainRtTrace`. -/
def rtReadbackId : Nat := 22
/-- Buffer handle of the BLAS scratch buffer in `mainRtTrace`. -/
def rtBlasScratchId : Nat := 11

/-! ### The run of src/apps/03_rt_lsi/main.cpp (its `main`, lines 322-874) -/

/-- Usage flags of the `makeHostSSBO` helper (03_rt_lsi/main.cpp:490-497). -/
def USAGE_HOST_SSBO : Nat :=
  USAGE_STORAGE_BUFFER ||| USAGE_SHADER_DEVICE_ADDRESS ||| USAGE_AS_BUILD_INPUT

/-- `MAX_HITS` (03_rt_lsi/main.cpp:517): capacity of the hit-record buffer. -/
def MAX_HITS : Nat := 1024

/-- `sizeof(HitRecord)` (03_rt_lsi/main.cpp:308-313): four 4-byte fields. -/
def hitRecordBytes : Nat := 16

/-- Event trace of one run of `main` in src/apps/03_rt_lsi/main.cpp.
Scene constants from the source: 4 query points (32 bytes), 2 query edges
(32 bytes), 6 base points (48 bytes), 3 base edges (48 bytes), 3 AABBs of 24
bytes (72 bytes), a hit buffer of 16*1024 bytes, a 4-byte counter, 3 shader
groups, a 2x1x1 ray launch.  Handle numbering: query points 1/2, query edges
3/4, base points 5/6, base edges 7/8, AABBs 9/10, hit records 11/12, counter
13/14, BLAS backing 15/16, BLAS 17, BLAS scratch 18/19, instance buffer
20/21, TLAS backing 22/23, TLAS 24, TLAS scratch 25/26, SBT 27/28.
The per-record host read loop after the wait is modelled by
`lsiReadbackIdx`; here it appears as the single `hostRead` of the
hit-record buffer. -/
def mainLsiTrace (o : Oracle) : List Ev :=
  let qpR := createBuffer o 0 32 USAGE_HOST_SSBO MEM_HOST_VC true             -- line 499
  let qp := qpR.1
  let qeR := createBuffer o qpR.2.1 32 USAGE_HOST_SSBO MEM_HOST_VC true       -- line 500
  let qe := qeR.1
  let bpR := createBuffer o qeR.2.1 48 USAGE_HOST_SSBO MEM_HOST_VC true       -- line 501
  let bp := bpR.1
  let beR := createBuffer o bpR.2.1 48 USAGE_HOST_SSBO MEM_HOST_VC true       -- line 502
  let be := beR.1
  let abR := createBuffer o beR.2.1 72 USAGE_HOST_SSBO MEM_HOST_VC true       -- line 503
  let ab := abR.1
  let hitsR := createBuffer o abR.2.1 (hitRecordBytes * MAX_HITS)
    (USAGE_STORAGE_BUFFER ||| USAGE_TRANSFER_SRC) MEM_HOST_VC false           -- line 518
  let outHits := hitsR.1
  let ctrR := createBuffer o hitsR.2.1 4
    (USAGE_STORAGE_BUFFER ||| USAGE_TRANSFER_SRC) MEM_HOST_VC false           -- line 523
  let outCounter := ctrR.1
  let blasR := createBLAS_AABBs o o.blasSizes ctrR.2.1 ab 3                   -- line 537
  let blas := blasR.1
  let tlasR := createTLAS_OneInstance o o.tlasSizes blasR.2.1 blas.addr       -- line 538
  let tlas := tlasR.1
  let sbtR := createBuffer o tlasR.2.1 (3 * alignUp o.handleSize o.handleAlign)
    (USAGE_SBT ||| USAGE_SHADER_DEVICE_ADDRESS) MEM_HOST_VC true              -- line 786
  let sbt := sbtR.1
  qpR.2.2 ++ qeR.2.2 ++ bpR.2.2 ++ beR.2.2 ++ abR.2.2
  ++ [Ev.mapBuf qp.buf, Ev.hostWrite qp.buf, Ev.unmapBuf qp.buf,              -- line 505
      Ev.mapBuf qe.buf, Ev.hostWrite qe.buf, Ev.unmapBuf qe.buf,              -- line 507
      Ev.mapBuf bp.buf, Ev.hostWrite bp.buf, Ev.unmapBuf bp.buf,              -- line 509
      Ev.mapBuf be.buf, Ev.hostWrite be.buf, Ev.unmapBuf be.buf,              -- line 511
      Ev.mapBuf ab.buf, Ev.hostWrite ab.buf, Ev.unmapBuf ab.buf]              -- line 513
  ++ hitsR.2.2 ++ ctrR.2.2
  ++ [Ev.mapBuf outCounter.buf, Ev.hostWrite outCounter.buf,                  -- line 529: zero the counter
      Ev.unmapBuf outCounter.buf]
  ++ [Ev.beginCmd]                                                            -- line 534
  ++ blasR.2.2
  ++ tlasR.2.2
  ++ [Ev.getHandles 3 (3 * o.handleSize)]                                     -- line 784
  ++ sbtR.2.2
  ++ [Ev.mapBuf sbt.buf,                                                      -- line 791
      Ev.hostWrite sbt.buf, Ev.hostWrite sbt.buf, Ev.hostWrite sbt.buf,       -- loop 792
      Ev.unmapBuf sbt.buf]
  ++ [Ev.cmdTraceRays 2 1 1]                                                  -- line 823
  ++ submitAndWait                                                            -- line 825
  ++ [Ev.mapBuf outCounter.buf, Ev.hostRead outCounter.buf,                   -- line 828
      Ev.unmapBuf outCounter.buf]                                             -- line 829
  ++ [Ev.mapBuf outHits.buf, Ev.hostRead outHits.buf,                         -- lines 834-840
      Ev.unmapBuf outHits.buf]                                                -- line 841
  ++ (destroyBuffer sbt).1                                                    -- line 844
  ++ (destroyAccel tlas).1 ++ (destroyAccel blas).1                           -- lines 857-858
  ++ (destroyBuffer qp).1 ++ (destroyBuffer qe).1 ++ (destroyBuffer bp).1     -- lines 860-866
  ++ (destroyBuffer be).1 ++ (destroyBuffer ab).1
  ++ (destroyBuffer outHits).1 ++ (destroyBuffer outCounter).1

/-- Buffer handle of the hit-record buffer in `mainLsiTrace`. -/
def lsiHitsId : Nat := 11
/-- Buffer handle of the hit-counter buffer in `mainLsiTrace`. -/
def lsiCounterId : Nat := 13
/-- Buffer handle of the BLAS scratch buffer in `mainLsiTrace`. -/
def lsiBlasScratchId : Nat := 18

/-- The host readback loop (03_rt_lsi/main.cpp:828-840): read the counter,
clamp it to `MAX_HITS`, then read `hits[i]` for `i = 0, …, hitCount-1`.
Returns the list of record indices the host reads. -/
def lsiReadbackIdx (counterValue : Nat) : List Nat :=
  let hitCount := counterValue                                                -- line 828
  let hitCount := min hitCount MAX_HITS                                       -- line 832
  List.range hitCount                                                         -- loop line 835

/-! ### Trace analysis helpers -/

/-- Is this event a queue submission? -/
def isSubmit : Ev → Bool
  | Ev.submit => true
  | _ => false

/-- Is this event the begin of command-buffer recording? -/
def isBeginCmd : Ev → Bool
  | Ev.beginCmd => true
  | _ => false

/-- Is this event the end of command-buffer recording? -/
def isEndCmd : Ev → Bool
  | Ev.endCmd => true
  | _ => false

/-- Is this event the wait for device completion? -/
def isWaitIdle : Ev → Bool
  | Ev.waitIdle => true
  | _ => false

/-- Is this event the destruction of buffer handle `b`? -/
def isDestroyBufOf (b : Nat) : Ev → Bool
  | Ev.destroyBuf x => x == b
  | _ => false

/-- Is this event a host mapping of buffer handle `b`? -/
def isMapOf (b : Nat) : Ev → Bool
  | Ev.mapBuf x => x == b
  | _ => false

/-- Is this event a host read from buffer handle `b`? -/
def isHostReadOf (b : Nat) : Ev → Bool
  | Ev.hostRead x => x == b
  | Ev.hostReadRecord x _ => x == b
  | _ => false

/-- Is this event a `vkGetBufferDeviceAddress` query on any buffer? -/
def isGetBufAddr : Ev → Bool
  | Ev.getBufAddr _ => true
  | _ => false

/-- Is this event a `vkBindBufferMemory`? -/
def isBindBufMem : Ev → Bool
  | Ev.bindBufMem _ _ => true
  | _ => false

/-- Index of the first event satisfying `p`. -/
def idxOf (p : Ev → Bool) : List Ev → Option Nat
  | [] => none
  | e :: es => if p e then some 0 else (idxOf p es).map (· + 1)

/-- `true` when some event satisfying `p` occurs strictly before the first
event satisfying `q`. -/
def occursBeforeB (p q : Ev → Bool) (tr : List Ev) : Bool :=
  match idxOf p tr, idxOf q tr with
  | some i, some j => Nat.blt i j
  | _, _ => false

/-- Number of events satisfying `p` in the trace. -/
def countEv (p : Ev → Bool) (tr : List Ev) : Nat := tr.countP p

/-- The part of the trace strictly before the first `vkQueueWaitIdle`. -/
def beforeWait (tr : List Ev) : List Ev := tr.takeWhile (fun e => !isWaitIdle e)

/-! ### Projections of a build trace onto the six protocol steps (claim C2) -/

/-- Step number of an event in the build protocol of spec §4.2:
1 describe geometry, 2 query sizes, 3 allocate backing/scratch storage,
4 create the structure object, 5 record the build, 6 record the barrier.
The two step-3 allocations are recognised by their exact final usage flags:
backing storage is created with usage
`AS_STORAGE ||| SHADER_DEVICE_ADDRESS = 0x120000` and scratch with
`STORAGE_BUFFER ||| SHADER_DEVICE_ADDRESS = 0x20020`; no other buffer in
either program is created with either flag combination. -/
def stepOf : Ev → Option Nat
  | Ev.describeGeom _ _ => some 1
  | Ev.querySizes _ => some 2
  | Ev.createBuf _ _ u _ _ =>
    if u == 0x120000 || u == 0x20020 then some 3 else none
  | Ev.createAS _ _ _ => some 4
  | Ev.cmdBuildAS _ _ => some 5
  | Ev.cmdBarrier a b c d =>
    if a == STAGE_AS_BUILD && b == ACCESS_AS_WRITE
        && c == STAGE_RT_SHADER && d == ACCESS_AS_READ then some 6 else none
  | _ => none

/-- The step numbers a build trace performs, in trace order. -/
def stepsOf (tr : List Ev) : List Nat := tr.filterMap stepOf

/-- Is a list of step numbers non-decreasing? -/
def sortedLe : List Nat → Bool
  | [] => true
  | [_] => true
  | a :: b :: rest => Nat.ble a b && sortedLe (b :: rest)

/-- The backing/scratch allocations of a build trace:
(buffer handle, requested size, `deviceAddress` argument). -/
def alloc3Of (tr : List Ev) : List (Nat × Nat × Bool) :=
  tr.filterMap fun e =>
    match e with
    | Ev.createBuf b sz u _ da =>
      if u == 0x120000 || u == 0x20020 then some (b, sz, da) else none
    | _ => none

/-- The geometry descriptions of a trace: (geometry type, geometry flags). -/
def geomsOf (tr : List Ev) : List (Nat × Nat) :=
  tr.filterMap fun e =>
    match e with
    | Ev.describeGeom t f => some (t, f)
    | _ => none

/-- The size queries of a trace: primitive counts passed to
`vkGetAccelerationStructureBuildSizesKHR`. -/
def queriesOf (tr : List Ev) : List Nat :=
  tr.filterMap fun e =>
    match e with
    | Ev.querySizes c => some c
    | _ => none

/-- The structure creations of a trace: (structure handle, size, backing buffer). -/
def createASOf (tr : List Ev) : List (Nat × Nat × Nat) :=
  tr.filterMap fun e =>
    match e with
    | Ev.createAS a s b => some (a, s, b)
    | _ => none

/-- The recorded build commands: (structure handle, scratch device address). -/
def buildsOf (tr : List Ev) : List (Nat × Nat) :=
  tr.filterMap fun e =>
    match e with
    | Ev.cmdBuildAS a s => some (a, s)
    | _ => none

/-- The recorded memory barriers: (srcStage, srcAccess, dstStage, dstAccess). -/
def barriersOf (tr : List Ev) : List (Nat × Nat × Nat × Nat) :=
  tr.filterMap fun e =>
    match e with
    | Ev.cmdBarrier a b c d => some (a, b, c, d)
    | _ => none

/-- The instance records written into a mapped instance buffer:
(mask, instance flags, referenced BLAS address). -/
def instWritesOf (tr : List Ev) : List (Nat × Nat × Nat) :=
  tr.filterMap fun e =>
    match e with
    | Ev.hostWriteInst _ m f r => some (m, f, r)
    | _ => none

/-- The buffer-creation `VkBufferCreateInfo::usage` values of a trace. -/
def createdUsages (tr : List Ev) : List Nat :=
  tr.filterMap fun e =>
    match e with
    | Ev.createBuf _ _ u _ _ => some u
    | _ => none

/-- The `VkMemoryAllocateFlagsInfo::flags` values of a trace's allocations. -/
def allocFlagsOf (tr : List Ev) : List Nat :=
  tr.filterMap fun e =>
    match e with
    | Ev.allocMem _ f => some f
    | _ => none

/-- A concrete device behaviour used for witnesses and counterexamples. -/
def testOracle : Oracle :=
  { bufAddr := fun i => 0x10000 + 0x100 * i
    asAddr := fun i => 0x50000 + 0x100 * i
    blasSizes := { accelerationStructureSize := 256, buildScratchSize := 64 }
    tlasSizes := { accelerationStructureSize := 128, buildScratchSize := 32 }
    handleSize := 32
    handleAlign := 64
    counter := 7 }

/-- The part of the trace strictly before the first `vkQueueSubmit`. -/
def beforeSubmit (tr : List Ev) : List Ev := tr.takeWhile (fun e => !isSubmit e)

/-- The part of the trace strictly before the first `vkEndCommandBuffer`. -/
def beforeEnd (tr : List Ev) : List Ev := tr.takeWhile (fun e => !isEndCmd e)

/-! ### Definitions supporting the claim statements -/

/-- One static `createBuffer` call site: the `usage` argument passed by the
caller and the `deviceAddress` argument. -/
structure CallSite where
  usage : Nat
  deviceAddress : Bool
deriving DecidableEq

/-- Every `createBuffer` call site of the two RT translation units. -/
def createBufferCallSites : List CallSite := [
  { usage := USAGE_AS_STORAGE, deviceAddress := true },                      -- main_rt.cpp:276 (BLAS backing)
  { usage := USAGE_STORAGE_BUFFER, deviceAddress := true },                  -- main_rt.cpp:288 (BLAS scratch)
  { usage := USAGE_AS_BUILD_INPUT ||| USAGE_TRANSFER_DST, deviceAddress := true }, -- main_rt.cpp:335 (instance upload)
  { usage := USAGE_AS_STORAGE, deviceAddress := true },                      -- main_rt.cpp:368 (TLAS backing)
  { usage := USAGE_STORAGE_BUFFER, deviceAddress := true },                  -- main_rt.cpp:380 (TLAS scratch)
  { usage := USAGE_AS_BUILD_INPUT, deviceAddress := true },                  -- main_rt.cpp:613 (vbo)
  { usage := USAGE_AS_BUILD_INPUT, deviceAddress := true },                  -- main_rt.cpp:617 (ibo)
  { usage := USAGE_SBT ||| USAGE_TRANSFER_DST, deviceAddress := true },      -- main_rt.cpp:862 (SBT)
  { usage := USAGE_TRANSFER_DST, deviceAddress := false },                   -- main_rt.cpp:904 (readback)
  { usage := USAGE_AS_STORAGE, deviceAddress := true },                      -- 03_rt_lsi:185 (BLAS backing)
  { usage := USAGE_STORAGE_BUFFER, deviceAddress := true },                  -- 03_rt_lsi:195 (BLAS scratch)
  { usage := USAGE_AS_BUILD_INPUT ||| USAGE_TRANSFER_DST, deviceAddress := true }, -- 03_rt_lsi:228 (instance upload)
  { usage := USAGE_AS_STORAGE, deviceAddress := true },                      -- 03_rt_lsi:260 (TLAS backing)
  { usage := USAGE_STORAGE_BUFFER, deviceAddress := true },                  -- 03_rt_lsi:270 (TLAS scratch)
  { usage := USAGE_HOST_SSBO, deviceAddress := true },                       -- 03_rt_lsi:490 (5 host SSBOs)
  { usage := USAGE_STORAGE_BUFFER ||| USAGE_TRANSFER_SRC, deviceAddress := false }, -- 03_rt_lsi:518 (hit records)
  { usage := USAGE_STORAGE_BUFFER ||| USAGE_TRANSFER_SRC, deviceAddress := false }, -- 03_rt_lsi:523 (hit counter)
  { usage := USAGE_SBT ||| USAGE_SHADER_DEVICE_ADDRESS, deviceAddress := true }]    -- 03_rt_lsi:786 (SBT)

/-- Modelled from the spec's words for claim C2 ("performs the six steps in
order"): the build trace performs each of the six protocol steps, and the
sequence of step numbers along the trace is non-decreasing. -/
def specSixStepsInOrder (tr : List Ev) : Prop :=
  sortedLe (stepsOf tr) = true ∧ ∀ s, s ∈ [1, 2, 3, 4, 5, 6] → s ∈ stepsOf tr

/-- Modelled from the spec's words for claim C5: one begin/end/submit/wait
per run, and every host mapping and host read of a result buffer happens
only after the wait. -/
def specSingleShotReadback (tr : List Ev) (resultIds : List Nat) : Prop :=
  countEv isBeginCmd tr = 1 ∧ countEv isEndCmd tr = 1 ∧
  countEv isSubmit tr = 1 ∧ countEv isWaitIdle tr = 1 ∧
  ∀ b, b ∈ resultIds →
    countEv (isMapOf b) (beforeWait tr) = 0 ∧
    countEv (isHostReadOf b) (beforeWait tr) = 0

/-- Concrete handle-block bytes used in the claim C3 witness. -/
def wHandles : Nat → Nat := fun j => (j + 1) % 256

/-- Concrete initial SBT-buffer bytes used in the claim C3 witness. -/
def wInit : Nat → Nat := fun _ => 170

/-! ### Shape lemmas: the build functions and full runs written out event by
event (only device-reported numbers stay symbolic) -/

/-- `mainRtTrace` written out event by event (only device-reported numbers
remain symbolic).  Used to evaluate trace predicates. -/
theorem mainRtTrace_eq (o : Oracle) : mainRtTrace o =
  [Ev.createBuf 1 108 655360 6 true,
   Ev.allocMem 2 2,
   Ev.bindBufMem 1 2,
   Ev.getBufAddr 1,
   Ev.createBuf 3 36 655360 6 true,
   Ev.allocMem 4 2,
   Ev.bindBufMem 3 4,
   Ev.getBufAddr 3,
   Ev.mapBuf 1,
   Ev.hostWrite 1,
   Ev.unmapBuf 1,
   Ev.mapBuf 3,
   Ev.hostWrite 3,
   Ev.unmapBuf 3,
   Ev.createImg 5,
   Ev.beginCmd,
   Ev.describeGeom 0 0,
   Ev.querySizes 3,
   Ev.createBuf 8 o.blasSizes.accelerationStructureSize 1179648 1 true,
   Ev.allocMem 9 2,
   Ev.bindBufMem 8 9,
   Ev.getBufAddr 8,
   Ev.createAS 10 o.blasSizes.accelerationStructureSize 8,
   Ev.createBuf 11 o.blasSizes.buildScratchSize 131104 1 true,
   Ev.allocMem 12 2,
   Ev.bindBufMem 11 12,
   Ev.getBufAddr 11,
   Ev.cmdBuildAS 10 (o.bufAddr 11),
   Ev.cmdBarrier 33554432 4194304 2097152 2097152,
   Ev.destroyBuf 11,
   Ev.freeMem 12,
   Ev.getASAddr 10,
   Ev.createBuf 13 64 655362 6 true,
   Ev.allocMem 14 2,
   Ev.bindBufMem 13 14,
   Ev.getBufAddr 13,
   Ev.mapBuf 13,
   Ev.hostWriteInst 13 255 1 (o.asAddr 10),
   Ev.unmapBuf 13,
   Ev.describeGeom 2 0,
   Ev.querySizes 1,
   Ev.createBuf 15 o.tlasSizes.accelerationStructureSize 1179648 1 true,
   Ev.allocMem 16 2,
   Ev.bindBufMem 15 16,
   Ev.getBufAddr 15,
   Ev.createAS 17 o.tlasSizes.accelerationStructureSize 15,
   Ev.createBuf 18 o.tlasSizes.buildScratchSize 131104 1 true,
   Ev.allocMem 19 2,
   Ev.bindBufMem 18 19,
   Ev.getBufAddr 18,
   Ev.cmdBuildAS 17 (o.bufAddr 18),
   Ev.cmdBarrier 33554432 4194304 2097152 2097152,
   Ev.getASAddr 17,
   Ev.cmdImgTransition 5 0 1,
   Ev.getHandles 3 (3 * o.handleSize),
   Ev.createBuf 20 (3 * alignUp o.handleSize o.handleAlign) 132098 6 true,
   Ev.allocMem 21 2,
   Ev.bindBufMem 20 21,
   Ev.getBufAddr 20,
   Ev.mapBuf 20,
   Ev.hostWrite 20,
   Ev.hostWrite 20,
   Ev.hostWrite 20,
   Ev.unmapBuf 20,
   Ev.cmdTraceRays 5 1 1,
   Ev.createBuf 22 80 2 6 false,
   Ev.allocMem 23 0,
   Ev.bindBufMem 22 23,
   Ev.cmdImgTransition 5 1 6,
   Ev.cmdCopyImageToBuffer 5 22,
   Ev.endCmd,
   Ev.submit,
   Ev.waitIdle,
   Ev.mapBuf 22,
   Ev.hostReadRecord 22 0,
   Ev.hostReadRecord 22 1,
   Ev.hostReadRecord 22 2,
   Ev.hostReadRecord 22 3,
   Ev.hostReadRecord 22 4,
   Ev.unmapBuf 22,
   Ev.destroyBuf 22,
   Ev.freeMem 23,
   Ev.destroyBuf 20,
   Ev.freeMem 21,
   Ev.destroyAS 17,
   Ev.destroyBuf 15,
   Ev.freeMem 16,
   Ev.destroyAS 10,
   Ev.destroyBuf 8,
   Ev.freeMem 9,
   Ev.destroyImgView 7,
   Ev.destroyImg 5,
   Ev.freeMem 6,
   Ev.destroyBuf 1,
   Ev.freeMem 2,
   Ev.destroyBuf 3,
   Ev.freeMem 4] := by
  simp [mainRtTrace, createBuffer, createBLAS_Triangles, createTLAS_OneInstance,
    createStorageImageRGBA32F, destroyBuffer, destroyAccel, destroyImage, submitAndWait,
    USAGE_AS_BUILD_INPUT, USAGE_SHADER_DEVICE_ADDRESS, USAGE_AS_STORAGE, USAGE_STORAGE_BUFFER,
    USAGE_SBT, USAGE_TRANSFER_DST, USAGE_TRANSFER_SRC, MEM_HOST_VC, MEM_HOST_VISIBLE,
    MEM_HOST_COHERENT, MEM_DEVICE_LOCAL, ALLOC_DEVICE_ADDRESS, GEOM_TRIANGLES, GEOM_AABBS,
    GEOM_INSTANCES, INST_CULL_DISABLE, STAGE_AS_BUILD, STAGE_RT_SHADER, ACCESS_AS_WRITE,
    ACCESS_AS_READ, LAYOUT_UNDEFINED, LAYOUT_GENERAL, LAYOUT_TRANSFER_SRC, USAGE_HOST_SSBO,
    MAX_HITS, hitRecordBytes]

/-- `mainLsiTrace` written out event by event. -/
theorem mainLsiTrace_eq (o : Oracle) : mainLsiTrace o =
  [Ev.createBuf 1 32 655392 6 true,
   Ev.allocMem 2 2,
   Ev.bindBufMem 1 2,
   Ev.getBufAddr 1,
   Ev.createBuf 3 32 655392 6 true,
   Ev.allocMem 4 2,
   Ev.bindBufMem 3 4,
   Ev.getBufAddr 3,
   Ev.createBuf 5 48 655392 6 true,
   Ev.allocMem 6 2,
   Ev.bindBufMem 5 6,
   Ev.getBufAddr 5,
   Ev.createBuf 7 48 655392 6 true,
   Ev.allocMem 8 2,
   Ev.bindBufMem 7 8,
   Ev.getBufAddr 7,
   Ev.createBuf 9 72 655392 6 true,
   Ev.allocMem 10 2,
   Ev.bindBufMem 9 10,
   Ev.getBufAddr 9,
   Ev.mapBuf 1,
   Ev.hostWrite 1,
   Ev.unmapBuf 1,
   Ev.mapBuf 3,
   Ev.hostWrite 3,
   Ev.unmapBuf 3,
   Ev.mapBuf 5,
   Ev.hostWrite 5,
   Ev.unmapBuf 5,
   Ev.mapBuf 7,
   Ev.hostWrite 7,
   Ev.unmapBuf 7,
   Ev.mapBuf 9,
   Ev.hostWrite 9,
   Ev.unmapBuf 9,
   Ev.createBuf 11 16384 33 6 false,
   Ev.allocMem 12 0,
   Ev.bindBufMem 11 12,
   Ev.createBuf 13 4 33 6 false,
   Ev.allocMem 14 0,
   Ev.bindBufMem 13 14,
   Ev.mapBuf 13,
   Ev.hostWrite 13,
   Ev.unmapBuf 13,
   Ev.beginCmd,
   Ev.describeGeom 1 0,
   Ev.querySizes 3,
   Ev.createBuf 15 o.blasSizes.accelerationStructureSize 1179648 1 true,
   Ev.allocMem 16 2,
   Ev.bindBufMem 15 16,
   Ev.getBufAddr 15,
   Ev.createAS 17 o.blasSizes.accelerationStructureSize 15,
   Ev.createBuf 18 o.blasSizes.buildScratchSize 131104 1 true,
   Ev.allocMem 19 2,
   Ev.bindBufMem 18 19,
   Ev.getBufAddr 18,
   Ev.cmdBuildAS 17 (o.bufAddr 18),
   Ev.cmdBarrier 33554432 4194304 2097152 2097152,
   Ev.destroyBuf 18,
   Ev.freeMem 19,
   Ev.getASAddr 17,
   Ev.createBuf 20 64 655362 6 true,
   Ev.allocMem 21 2,
   Ev.bindBufMem 20 21,
   Ev.getBufAddr 20,
   Ev.mapBuf 20,
   Ev.hostWriteInst 20 255 1 (o.asAddr 17),
   Ev.unmapBuf 20,
   Ev.describeGeom 2 0,
   Ev.querySizes 1,
   Ev.createBuf 22 o.tlasSizes.accelerationStructureSize 1179648 1 true,
   Ev.allocMem 23 2,
   Ev.bindBufMem 22 23,
   Ev.getBufAddr 22,
   Ev.createAS 24 o.tlasSizes.accelerationStructureSize 22,
   Ev.createBuf 25 o.tlasSizes.buildScratchSize 131104 1 true,
   Ev.allocMem 26 2,
   Ev.bindBufMem 25 26,
   Ev.getBufAddr 25,
   Ev.cmdBuildAS 24 (o.bufAddr 25),
   Ev.cmdBarrier 33554432 4194304 2097152 2097152,
   Ev.getASAddr 24,
   Ev.getHandles 3 (3 * o.handleSize),
   Ev.createBuf 27 (3 * alignUp o.handleSize o.handleAlign) 132096 6 true,
   Ev.allocMem 28 2,
   Ev.bindBufMem 27 28,
   Ev.getBufAddr 27,
   Ev.mapBuf 27,
   Ev.hostWrite 27,
   Ev.hostWrite 27,
   Ev.hostWrite 27,
   Ev.unmapBuf 27,
   Ev.cmdTraceRays 2 1 1,
   Ev.endCmd,
   Ev.submit,
   Ev.waitIdle,
   Ev.mapBuf 13,
   Ev.hostRead 13,
   Ev.unmapBuf 13,
   Ev.mapBuf 11,
   Ev.hostRead 11,
   Ev.unmapBuf 11,
   Ev.destroyBuf 27,
   Ev.freeMem 28,
   Ev.destroyAS 24,
   Ev.destroyBuf 22,
   Ev.freeMem 23,
   Ev.destroyAS 17,
   Ev.destroyBuf 15,
   Ev.freeMem 16,
   Ev.destroyBuf 1,
   Ev.freeMem 2,
   Ev.destroyBuf 3,
   Ev.freeMem 4,
   Ev.destroyBuf 5,
   Ev.freeMem 6,
   Ev.destroyBuf 7,
   Ev.freeMem 8,
   Ev.destroyBuf 9,
   Ev.freeMem 10,
   Ev.destroyBuf 11,
   Ev.freeMem 12,
   Ev.destroyBuf 13,
   Ev.freeMem 14] := by
  simp [mainLsiTrace, createBuffer, createBLAS_AABBs, createTLAS_OneInstance,
    destroyBuffer, destroyAccel, submitAndWait,
    USAGE_AS_BUILD_INPUT, USAGE_SHADER_DEVICE_ADDRESS, USAGE_AS_STORAGE, USAGE_STORAGE_BUFFER,
    USAGE_SBT, USAGE_TRANSFER_DST, USAGE_TRANSFER_SRC, MEM_HOST_VC, MEM_HOST_VISIBLE,
    MEM_HOST_COHERENT, MEM_DEVICE_LOCAL, ALLOC_DEVICE_ADDRESS, GEOM_TRIANGLES, GEOM_AABBS,
    GEOM_INSTANCES, INST_CULL_DISABLE, STAGE_AS_BUILD, STAGE_RT_SHADER, ACCESS_AS_WRITE,
    ACCESS_AS_READ, USAGE_HOST_SSBO, MAX_HITS, hitRecordBytes]

/-! ### Arithmetic facts about `alignUp` (SBT stride computation) -/

theorem and_high_mask {x k w : Nat} (hx : x < 2 ^ w) (hk : k ≤ w) :
    x &&& (2 ^ w - 2 ^ k) = 2 ^ k * (x / 2 ^ k) := by
  have hsplit : 2 ^ w - 2 ^ k = 2 ^ k * (2 ^ (w - k) - 1) := by
    rw [Nat.mul_sub_one]
    rw [← Nat.pow_add]
    rw [Nat.add_sub_cancel' hk]
  apply Nat.eq_of_testBit_eq
  intro i
  rw [Nat.testBit_and, hsplit, Nat.testBit_mul_pow_two, Nat.testBit_mul_pow_two]
  rw [Nat.testBit_two_pow_sub_one]
  have hdiv : x / 2 ^ k = x >>> k := (Nat.shiftRight_eq_div_pow x k).symm
  rw [hdiv, Nat.testBit_shiftRight]
  by_cases hik : k ≤ i
  · by_cases hiw : i < w
    · have h1 : i - k < w - k := by omega
      have h2 : k + (i - k) = i := by omega
      simp [hik, h1, h2]
    · have h1 : ¬ (i - k < w - k) := by omega
      have h2 : x.testBit i = false := Nat.testBit_lt_two_pow (by
        calc x < 2 ^ w := hx
        _ ≤ 2 ^ i := Nat.pow_le_pow_right (by omega) (by omega))
      simp [hik, h1, h2]
  · simp [hik]

theorem alignUp_pow2 {v k : Nat} (hk : k < 32) (hv : v + 2 ^ k ≤ 2 ^ 32) :
    alignUp v (2 ^ k) = 2 ^ k * ((v + 2 ^ k - 1) / 2 ^ k) := by
  have hkpos : 0 < 2 ^ k := Nat.pos_pow_of_pos k (by omega)
  have hkle : 2 ^ k ≤ 2 ^ 32 := Nat.pow_le_pow_right (by omega) (by omega)
  have ham1 : (2 ^ k + (2 ^ 32 - 1)) % 2 ^ 32 = 2 ^ k - 1 := by
    have : 2 ^ k + (2 ^ 32 - 1) = 2 ^ 32 + (2 ^ k - 1) := by omega
    rw [this, Nat.add_mod_left, Nat.mod_eq_of_lt (by omega)]
  have hsum : (v + (2 ^ k - 1)) % 2 ^ 32 = v + 2 ^ k - 1 := by
    rw [Nat.mod_eq_of_lt (by omega)]
    omega
  have hmask : (2 ^ 32 - 1) - (2 ^ k - 1) = 2 ^ 32 - 2 ^ k := by omega
  unfold alignUp
  rw [ham1]
  show ((v + (2 ^ k - 1)) % 2 ^ 32) &&& ((2 ^ 32 - 1) - (2 ^ k - 1)) =
    2 ^ k * ((v + 2 ^ k - 1) / 2 ^ k)
  rw [hsum, hmask]
  exact and_high_mask (by omega) (by omega)

theorem roundUp_spec {v k : Nat} (hvpos : 0 < v) :
    v ≤ 2 ^ k * ((v + 2 ^ k - 1) / 2 ^ k) ∧
    2 ^ k ∣ 2 ^ k * ((v + 2 ^ k - 1) / 2 ^ k) ∧
    ∀ m, 2 ^ k ∣ m → v ≤ m → 2 ^ k * ((v + 2 ^ k - 1) / 2 ^ k) ≤ m := by
  have hkpos : 0 < 2 ^ k := Nat.pos_pow_of_pos k (by omega)
  set x := v + 2 ^ k - 1 with hx
  have hmod := Nat.div_add_mod x (2 ^ k)
  have hmlt : x % 2 ^ k < 2 ^ k := Nat.mod_lt _ hkpos
  refine ⟨?_, Dvd.intro _ rfl, ?_⟩
  · set P := 2 ^ k * (x / 2 ^ k) with hP
    omega
  · intro m hdvd hvm
    obtain ⟨c, rfl⟩ := hdvd
    have hlt : x < 2 ^ k * (c + 1) := by
      have : 2 ^ k * (c + 1) = 2 ^ k * c + 2 ^ k := by ring
      omega
    have hdivle : x / 2 ^ k ≤ c := by
      by_contra hcon
      have : c + 1 ≤ x / 2 ^ k := by omega
      have : 2 ^ k * (c + 1) ≤ 2 ^ k * (x / 2 ^ k) := Nat.mul_le_mul_left _ this
      have hle : 2 ^ k * (x / 2 ^ k) ≤ x := Nat.mul_div_le x (2 ^ k)
      omega
    exact Nat.mul_le_mul_left _ hdivle

theorem copyHandles_slot (handles : Nat → Nat) {handleSize stride : Nat}
    (hss : handleSize ≤ stride) :
    ∀ (cnt : Nat) (mem : Nat → Nat) (i j : Nat), i < cnt → j < handleSize →
      copyHandles handles handleSize stride cnt mem (i * stride + j) =
        handles (i * handleSize + j) := by
  intro cnt
  induction cnt with
  | zero => intro mem i j hi; omega
  | succ c ih =>
    intro mem i j hi hj
    by_cases hic : i = c
    · subst hic
      have hcond : i * stride ≤ i * stride + j ∧ i * stride + j < i * stride + handleSize := by
        constructor
        · omega
        · omega
      simp only [copyHandles, writeSlot, if_pos hcond]
      congr 1
      omega
    · have hilt : i < c := by omega
      have hup : i * stride + j < c * stride := by
        have h1 : i * stride + j < (i + 1) * stride := by
          have : (i + 1) * stride = i * stride + stride := by ring
          omega
        have h2 : (i + 1) * stride ≤ c * stride := Nat.mul_le_mul_right _ (by omega)
        omega
      have hcond : ¬ (c * stride ≤ i * stride + j ∧
          i * stride + j < c * stride + handleSize) := by omega
      simp only [copyHandles, writeSlot, if_neg hcond]
      exact ih mem i j hilt hj

theorem copyHandles_padding (handles : Nat → Nat) {handleSize stride : Nat} :
    ∀ (cnt : Nat) (mem : Nat → Nat) (p : Nat),
      (∀ i, i < cnt → ¬ (i * stride ≤ p ∧ p < i * stride + handleSize)) →
      copyHandles handles handleSize stride cnt mem p = mem p := by
  intro cnt
  induction cnt with
  | zero => intro mem p h; rfl
  | succ c ih =>
    intro mem p h
    have hcond : ¬ (c * stride ≤ p ∧ p < c * stride + handleSize) := h c (by omega)
    simp only [copyHandles, writeSlot, if_neg hcond]
    exact ih mem p (fun i hi => h i (by omega))

theorem findMemoryTypeGo_spec :
    ∀ (types : List Nat) (tb req i : Nat),
      (∀ r, findMemoryTypeGo types tb req i = some r →
        i ≤ r ∧
        (∃ t, types[r - i]? = some t ∧ tb.testBit r = true ∧ t &&& req = req) ∧
        (∀ m, i ≤ m → m < r → ∀ t, types[m - i]? = some t →
          ¬ (tb.testBit m = true ∧ t &&& req = req))) ∧
      (findMemoryTypeGo types tb req i = none →
        ∀ m, i ≤ m → ∀ t, types[m - i]? = some t →
          ¬ (tb.testBit m = true ∧ t &&& req = req)) := by
  intro types
  induction types with
  | nil =>
    intro tb req i
    exact ⟨fun r hr => by simp [findMemoryTypeGo] at hr,
           fun _ m hm t ht => by simp at ht⟩
  | cons t0 ts ih =>
    intro tb req i
    constructor
    · intro r hr
      by_cases hc : tb.testBit i = true ∧ t0 &&& req = req
      · rw [findMemoryTypeGo, if_pos hc] at hr
        obtain rfl : i = r := by injection hr
        refine ⟨Nat.le_refl _, ⟨t0, by simp, hc.1, hc.2⟩, ?_⟩
        intro m him hmr
        omega
      · rw [findMemoryTypeGo, if_neg hc] at hr
        obtain ⟨h1, ⟨t, ht, htb, hreq⟩, hmin⟩ := (ih tb req (i + 1)).1 r hr
        refine ⟨by omega, ⟨t, ?_, htb, hreq⟩, ?_⟩
        · have hidx : r - i = (r - (i + 1)) + 1 := by omega
          rw [hidx, List.getElem?_cons_succ]
          exact ht
        · intro m him hmr t2 ht2
          by_cases hmi : m = i
          · subst hmi
            have : t2 = t0 := by
              rw [Nat.sub_self, List.getElem?_cons_zero] at ht2
              injection ht2 with h
              exact h.symm
            subst this
            exact hc
          · have hm1 : i + 1 ≤ m := by omega
            have hidx : m - i = (m - (i + 1)) + 1 := by omega
            rw [hidx, List.getElem?_cons_succ] at ht2
            exact hmin m hm1 hmr t2 ht2
    · intro hn m hm t2 ht2
      by_cases hc : tb.testBit i = true ∧ t0 &&& req = req
      · rw [findMemoryTypeGo, if_pos hc] at hn
        simp at hn
      · rw [findMemoryTypeGo, if_neg hc] at hn
        by_cases hmi : m = i
        · subst hmi
          have : t2 = t0 := by
            rw [Nat.sub_self, List.getElem?_cons_zero] at ht2
            injection ht2 with h
            exact h.symm
          subst this
          exact hc
        · have hm1 : i + 1 ≤ m := by omega
          have hidx : m - i = (m - (i + 1)) + 1 := by omega
          rw [hidx, List.getElem?_cons_succ] at ht2
          exact (ih tb req (i + 1)).2 hn m hm1 t2 ht2

theorem toWords_length : ∀ bs : List Nat, bs.length % 4 = 0 →
    (toWords bs).length = bs.length / 4
  | [] => fun _ => rfl
  | [b0] => by intro h; simp at h
  | [b0, b1] => by intro h; simp at h
  | [b0, b1, b2] => by intro h; simp at h
  | b0 :: b1 :: b2 :: b3 :: rest => by
    intro h
    have hr : rest.length % 4 = 0 := by
      simp only [List.length_cons] at h
      omega
    have ih := toWords_length rest hr
    simp only [toWords, List.length_cons, ih]
    omega

theorem wordsBytes_toWords : ∀ bs : List Nat, (∀ b ∈ bs, b < 256) →
    bs.length % 4 = 0 → wordsBytes (toWords bs) = bs
  | [] => fun _ _ => rfl
  | [b0] => by intro _ h; simp at h
  | [b0, b1] => by intro _ h; simp at h
  | [b0, b1, b2] => by intro _ h; simp at h
  | b0 :: b1 :: b2 :: b3 :: rest => by
    intro hb h
    have hr : rest.length % 4 = 0 := by
      simp only [List.length_cons] at h
      omega
    have hbr : ∀ b ∈ rest, b < 256 := fun b hbm => hb b (by simp [hbm])
    have ih := wordsBytes_toWords rest hbr hr
    have h0 : b0 < 256 := hb b0 (by simp)
    have h1 : b1 < 256 := hb b1 (by simp)
    have h2 : b2 < 256 := hb b2 (by simp)
    have h3 : b3 < 256 := hb b3 (by simp)
    simp only [toWords, wordsBytes, bytesOfWord, ih, List.cons_append, List.nil_append]
    refine List.cons_eq_cons.mpr ⟨by omega, ?_⟩
    refine List.cons_eq_cons.mpr ⟨by omega, ?_⟩
    refine List.cons_eq_cons.mpr ⟨by omega, ?_⟩
    refine List.cons_eq_cons.mpr ⟨by omega, rfl⟩

theorem createBLAS_Triangles_eq (o : Oracle) (sizes : SizeInfo) (n : Nat)
    (vbo : Buffer) (vc vs : Nat) (ibo : Buffer) (ic : Nat) :
    createBLAS_Triangles o sizes n vbo vc vs ibo ic =
      ({ as := n + 3,
         backing := { buf := n + 1, mem := n + 2, addr := o.bufAddr (n + 1),
                      size := sizes.accelerationStructureSize },
         addr := o.asAddr (n + 3) },
       n + 5,
       [Ev.describeGeom 0 0,
        Ev.querySizes (ic / 3),
        Ev.createBuf (n + 1) sizes.accelerationStructureSize 1179648 1 true,
        Ev.allocMem (n + 2) 2,
        Ev.bindBufMem (n + 1) (n + 2),
        Ev.getBufAddr (n + 1),
        Ev.createAS (n + 3) sizes.accelerationStructureSize (n + 1),
        Ev.createBuf (n + 4) sizes.buildScratchSize 131104 1 true,
        Ev.allocMem (n + 5) 2,
        Ev.bindBufMem (n + 4) (n + 5),
        Ev.getBufAddr (n + 4),
        Ev.cmdBuildAS (n + 3) (o.bufAddr (n + 4)),
        Ev.cmdBarrier 33554432 4194304 2097152 2097152,
        Ev.destroyBuf (n + 4),
        Ev.freeMem (n + 5),
        Ev.getASAddr (n + 3)]) := rfl

theorem createBLAS_AABBs_eq (o : Oracle) (sizes : SizeInfo) (n : Nat)
    (aabbBuf : Buffer) (aabbCount : Nat) :
    createBLAS_AABBs o sizes n aabbBuf aabbCount =
      ({ as := n + 3,
         backing := { buf := n + 1, mem := n + 2, addr := o.bufAddr (n + 1),
                      size := sizes.accelerationStructureSize },
         addr := o.asAddr (n + 3) },
       n + 5,
       [Ev.describeGeom 1 0,
        Ev.querySizes aabbCount,
        Ev.createBuf (n + 1) sizes.accelerationStructureSize 1179648 1 true,
        Ev.allocMem (n + 2) 2,
        Ev.bindBufMem (n + 1) (n + 2),
        Ev.getBufAddr (n + 1),
        Ev.createAS (n + 3) sizes.accelerationStructureSize (n + 1),
        Ev.createBuf (n + 4) sizes.buildScratchSize 131104 1 true,
        Ev.allocMem (n + 5) 2,
        Ev.bindBufMem (n + 4) (n + 5),
        Ev.getBufAddr (n + 4),
        Ev.cmdBuildAS (n + 3) (o.bufAddr (n + 4)),
        Ev.cmdBarrier 33554432 4194304 2097152 2097152,
        Ev.destroyBuf (n + 4),
        Ev.freeMem (n + 5),
        Ev.getASAddr (n + 3)]) := rfl

theorem createTLAS_OneInstance_eq (o : Oracle) (sizes : SizeInfo) (n blasAddr : Nat) :
    createTLAS_OneInstance o sizes n blasAddr =
      ({ as := n + 5,
         backing := { buf := n + 3, mem := n + 4, addr := o.bufAddr (n + 3),
                      size := sizes.accelerationStructureSize },
         addr := o.asAddr (n + 5) },
       n + 7,
       [Ev.createBuf (n + 1) 64 655362 6 true,
        Ev.allocMem (n + 2) 2,
        Ev.bindBufMem (n + 1) (n + 2),
        Ev.getBufAddr (n + 1),
        Ev.mapBuf (n + 1),
        Ev.hostWriteInst (n + 1) 255 1 blasAddr,
        Ev.unmapBuf (n + 1),
        Ev.describeGeom 2 0,
        Ev.querySizes 1,
        Ev.createBuf (n + 3) sizes.accelerationStructureSize 1179648 1 true,
        Ev.allocMem (n + 4) 2,
        Ev.bindBufMem (n + 3) (n + 4),
        Ev.getBufAddr (n + 3),
        Ev.createAS (n + 5) sizes.accelerationStructureSize (n + 3),
        Ev.createBuf (n + 6) sizes.buildScratchSize 131104 1 true,
        Ev.allocMem (n + 7) 2,
        Ev.bindBufMem (n + 6) (n + 7),
        Ev.getBufAddr (n + 6),
        Ev.cmdBuildAS (n + 5) (o.bufAddr (n + 6)),
        Ev.cmdBarrier 33554432 4194304 2097152 2097152,
        Ev.getASAddr (n + 5)]) := rfl

/-! ### The claims -/

/-- Claim C1 (the code violates it): in both RT runs the BLAS scratch buffer
— the buffer whose device address the recorded build command references — is
destroyed strictly before the single queue submission, instead of after the
submit-and-wait returns. -/
theorem claim_C1_scratch_destroyed_before_submit (o : Oracle) :
    countEv (isDestroyBufOf rtBlasScratchId) (beforeSubmit (mainRtTrace o)) = 1 ∧
    countEv (isDestroyBufOf lsiBlasScratchId) (beforeSubmit (mainLsiTrace o)) = 1 ∧
    countEv isSubmit (mainRtTrace o) = 1 ∧
    countEv isSubmit (mainLsiTrace o) = 1 ∧
    buildsOf (mainRtTrace o) =
      [(10, o.bufAddr rtBlasScratchId), (17, o.bufAddr 18)] ∧
    buildsOf (mainLsiTrace o) =
      [(17, o.bufAddr lsiBlasScratchId), (24, o.bufAddr 25)] := by
  rw [mainRtTrace_eq, mainLsiTrace_eq]
  exact ⟨rfl, rfl, rfl, rfl, rfl, rfl⟩

/-- Counterexample to claim C2 as stated: the trace of
`createBLAS_Triangles` on the triangle scene of main_rt.cpp performs its
steps in the order 1,2,3,4,3,5,6 — the scratch allocation (step 3) happens
after the structure object is created (step 4) — so the six steps are not
performed in order. -/
theorem claim_C2_counterexample :
    ¬ specSixStepsInOrder (createBLAS_Triangles testOracle testOracle.blasSizes 7
        { buf := 1, mem := 2, addr := 0x10100, size := 108 } 9 12
        { buf := 3, mem := 4, addr := 0x10300, size := 36 } 9).2.2 := by
  intro h
  exact absurd h.1 (by decide)

/-- Claim C2 as amended: every build performs describe-geometry, query-sizes,
allocate backing (exactly the reported structure size, device-addressable),
create the structure bound to the backing, allocate scratch (exactly the
reported scratch size, device-addressable), record the build referencing the
scratch buffer's device address, and record the
build-write-to-trace-stage-read barrier — in that order, the scratch
allocation coming after structure creation rather than before it. -/
theorem claim_C2_amended (o : Oracle) (sizes sizesA sizesT : SizeInfo)
    (n m p : Nat) (vbo : Buffer) (vc vs : Nat) (ibo : Buffer) (ic : Nat)
    (aabbBuf : Buffer) (ac blasAddr : Nat) :
    stepsOf (createBLAS_Triangles o sizes n vbo vc vs ibo ic).2.2 =
      [1, 2, 3, 4, 3, 5, 6] ∧
    geomsOf (createBLAS_Triangles o sizes n vbo vc vs ibo ic).2.2 =
      [(GEOM_TRIANGLES, 0)] ∧
    queriesOf (createBLAS_Triangles o sizes n vbo vc vs ibo ic).2.2 = [ic / 3] ∧
    alloc3Of (createBLAS_Triangles o sizes n vbo vc vs ibo ic).2.2 =
      [(n + 1, sizes.accelerationStructureSize, true),
       (n + 4, sizes.buildScratchSize, true)] ∧
    createASOf (createBLAS_Triangles o sizes n vbo vc vs ibo ic).2.2 =
      [(n + 3, sizes.accelerationStructureSize, n + 1)] ∧
    buildsOf (createBLAS_Triangles o sizes n vbo vc vs ibo ic).2.2 =
      [(n + 3, o.bufAddr (n + 4))] ∧
    barriersOf (createBLAS_Triangles o sizes n vbo vc vs ibo ic).2.2 =
      [(STAGE_AS_BUILD, ACCESS_AS_WRITE, STAGE_RT_SHADER, ACCESS_AS_READ)] ∧
    stepsOf (createBLAS_AABBs o sizesA m aabbBuf ac).2.2 = [1, 2, 3, 4, 3, 5, 6] ∧
    geomsOf (createBLAS_AABBs o sizesA m aabbBuf ac).2.2 = [(GEOM_AABBS, 0)] ∧
    queriesOf (createBLAS_AABBs o sizesA m aabbBuf ac).2.2 = [ac] ∧
    alloc3Of (createBLAS_AABBs o sizesA m aabbBuf ac).2.2 =
      [(m + 1, sizesA.accelerationStructureSize, true),
       (m + 4, sizesA.buildScratchSize, true)] ∧
    createASOf (createBLAS_AABBs o sizesA m aabbBuf ac).2.2 =
      [(m + 3, sizesA.accelerationStructureSize, m + 1)] ∧
    buildsOf (createBLAS_AABBs o sizesA m aabbBuf ac).2.2 =
      [(m + 3, o.bufAddr (m + 4))] ∧
    barriersOf (createBLAS_AABBs o sizesA m aabbBuf ac).2.2 =
      [(STAGE_AS_BUILD, ACCESS_AS_WRITE, STAGE_RT_SHADER, ACCESS_AS_READ)] ∧
    stepsOf (createTLAS_OneInstance o sizesT p blasAddr).2.2 =
      [1, 2, 3, 4, 3, 5, 6] ∧
    geomsOf (createTLAS_OneInstance o sizesT p blasAddr).2.2 =
      [(GEOM_INSTANCES, 0)] ∧
    queriesOf (createTLAS_OneInstance o sizesT p blasAddr).2.2 = [1] ∧
    alloc3Of (createTLAS_OneInstance o sizesT p blasAddr).2.2 =
      [(p + 3, sizesT.accelerationStructureSize, true),
       (p + 6, sizesT.buildScratchSize, true)] ∧
    createASOf (createTLAS_OneInstance o sizesT p blasAddr).2.2 =
      [(p + 5, sizesT.accelerationStructureSize, p + 3)] ∧
    buildsOf (createTLAS_OneInstance o sizesT p blasAddr).2.2 =
      [(p + 5, o.bufAddr (p + 6))] ∧
    barriersOf (createTLAS_OneInstance o sizesT p blasAddr).2.2 =
      [(STAGE_AS_BUILD, ACCESS_AS_WRITE, STAGE_RT_SHADER, ACCESS_AS_READ)] := by
  simp only [createBLAS_Triangles_eq, createBLAS_AABBs_eq, createTLAS_OneInstance_eq]
  exact ⟨rfl, rfl, rfl, rfl, rfl, rfl, rfl, rfl, rfl, rfl, rfl, rfl, rfl, rfl,
         rfl, rfl, rfl, rfl, rfl, rfl, rfl⟩

/-- Claim C3: SBT construction computes `alignedStride = roundUp(handleSize,
handleAlignment)`, allocates a host-visible device-addressable buffer of
exactly `groupCount * alignedStride` bytes, retrieves all group handles as
one contiguous block of `groupCount * handleSize` bytes, and copies exactly
`handleSize` bytes into each slot at offset `i * alignedStride`, leaving the
per-slot padding intact.  (`handleAlignment` is a power of two by the Vulkan
spec; overflow of the 32-bit stride computation is excluded by `hfit`.) -/
theorem claim_C3_sbt_layout (handleSize handleAlign k groupCount : Nat)
    (handles init : Nat → Nat)
    (hAlign : handleAlign = 2 ^ k) (hk : k < 32) (hpos : 0 < handleSize)
    (hfit : handleSize + handleAlign ≤ 2 ^ 32) :
    (buildSBT handleSize handleAlign groupCount handles init).stride =
      handleAlign * ((handleSize + handleAlign - 1) / handleAlign) ∧
    handleSize ≤ (buildSBT handleSize handleAlign groupCount handles init).stride ∧
    handleAlign ∣ (buildSBT handleSize handleAlign groupCount handles init).stride ∧
    (∀ m, handleAlign ∣ m → handleSize ≤ m →
      (buildSBT handleSize handleAlign groupCount handles init).stride ≤ m) ∧
    (buildSBT handleSize handleAlign groupCount handles init).bufSize =
      groupCount * (buildSBT handleSize handleAlign groupCount handles init).stride ∧
    (buildSBT handleSize handleAlign groupCount handles init).memProps = MEM_HOST_VC ∧
    (buildSBT handleSize handleAlign groupCount handles init).devAddr = true ∧
    (buildSBT handleSize handleAlign groupCount handles init).handlesLen =
      groupCount * handleSize ∧
    (∀ i, i < groupCount → ∀ j, j < handleSize →
      (buildSBT handleSize handleAlign groupCount handles init).mem
          (i * (buildSBT handleSize handleAlign groupCount handles init).stride + j) =
        handles (i * handleSize + j)) ∧
    (∀ p, (∀ i, i < groupCount →
        ¬ (i * (buildSBT handleSize handleAlign groupCount handles init).stride ≤ p ∧
           p < i * (buildSBT handleSize handleAlign groupCount handles init).stride
             + handleSize)) →
      (buildSBT handleSize handleAlign groupCount handles init).mem p = init p) := by
  subst hAlign
  have hstride : (buildSBT handleSize (2 ^ k) groupCount handles init).stride =
      2 ^ k * ((handleSize + 2 ^ k - 1) / 2 ^ k) := alignUp_pow2 hk hfit
  obtain ⟨hle, hdvd, hmin⟩ := roundUp_spec (v := handleSize) (k := k) hpos
  have hss : handleSize ≤ (buildSBT handleSize (2 ^ k) groupCount handles init).stride := by
    rw [hstride]; exact hle
  refine ⟨hstride, hss, ?_, ?_, rfl, rfl, rfl, rfl, ?_, ?_⟩
  · rw [hstride]; exact hdvd
  · intro m hm hvm; rw [hstride]; exact hmin m hm hvm
  · intro i hi j hj
    exact copyHandles_slot handles hss groupCount init i j hi hj
  · intro p hp
    exact copyHandles_padding handles groupCount init p hp

/-- Witness for claim C3 at `handleSize = 32`, `handleAlign = 64 = 2^6`,
`groupCount = 3`: byte 5 of slot 2 holds byte 69 of the handle block, and
padding byte 190 is untouched. -/
theorem claim_C3_witness :
    (buildSBT 32 64 3 wHandles wInit).mem
        (2 * (buildSBT 32 64 3 wHandles wInit).stride + 5) = wHandles (2 * 32 + 5) ∧
    (buildSBT 32 64 3 wHandles wInit).mem 190 = wInit 190 := by
  have h := claim_C3_sbt_layout 32 64 6 3 wHandles wInit (by decide) (by decide)
    (by decide) (by decide)
  exact ⟨h.2.2.2.2.2.2.2.2.1 2 (by decide) 5 (by decide),
         h.2.2.2.2.2.2.2.2.2 190 (by decide)⟩

/-- Claim C4: `findMemoryType` returns the smallest index whose bit is set in
the hardware type bitmask and whose property flags are a superset of the
requested flags, and aborts (modelled as `none`) exactly when no index
qualifies. -/
theorem claim_C4_findMemoryType (types : List Nat) (tb req : Nat) :
    (∀ r, findMemoryType types tb req = some r →
      (∃ t, types[r]? = some t ∧ tb.testBit r = true ∧ t &&& req = req) ∧
      (∀ m, m < r → ∀ t, types[m]? = some t →
        ¬ (tb.testBit m = true ∧ t &&& req = req))) ∧
    (findMemoryType types tb req = none →
      ∀ m, ∀ t, types[m]? = some t → ¬ (tb.testBit m = true ∧ t &&& req = req)) := by
  have h := findMemoryTypeGo_spec types tb req 0
  constructor
  · intro r hr
    obtain ⟨-, ⟨t, ht, htb, hreq⟩, hmin⟩ := h.1 r hr
    rw [Nat.sub_zero] at ht
    refine ⟨⟨t, ht, htb, hreq⟩, ?_⟩
    intro m hmr t2 ht2
    exact hmin m (Nat.zero_le m) hmr t2 (by rwa [Nat.sub_zero])
  · intro hn m t2 ht2
    exact h.2 hn m (Nat.zero_le m) t2 (by rwa [Nat.sub_zero])

/-- Witness for claim C4: with property flags `[0, 6, 7]`, type bitmask
`0b110` and request `6`, index 1 is returned and index 0 is rejected. -/
theorem claim_C4_witness :
    (∃ t, ([0, 6, 7] : List Nat)[(1 : Nat)]? = some t ∧
      (6 : Nat).testBit 1 = true ∧ t &&& 6 = 6) ∧
    (∀ m, m < 1 → ∀ t, ([0, 6, 7] : List Nat)[m]? = some t →
      ¬ ((6 : Nat).testBit m = true ∧ t &&& 6 = 6)) :=
  (claim_C4_findMemoryType [0, 6, 7] 6 6).1 1 (by decide)

/-- Counterexample to claim C5 as stated: in the 03_rt_lsi run the counter
buffer — a result buffer — is mapped once before the command buffer is even
recorded (to zero-initialize it, 03_rt_lsi/main.cpp:529), so "maps … only
after that submit-and-wait call has returned, never before" fails. -/
theorem claim_C5_counterexample :
    ¬ specSingleShotReadback (mainLsiTrace testOracle) [lsiHitsId, lsiCounterId] := by
  intro h
  have hc := (h.2.2.2.2 lsiCounterId (by simp)).1
  rw [mainLsiTrace_eq] at hc
  exact absurd hc (by decide)

/-- Claim C5 as amended: each run records exactly one command sequence,
closes it, submits it once and waits (in that order); every host read of a
result buffer happens only after the wait, and the readback and hit-record
buffers are also first mapped only after the wait; the only pre-wait access
to a result buffer is a single mapping of the counter buffer before
recording, used to zero-initialize it with a host write. -/
theorem claim_C5_amended (o : Oracle) :
    countEv isBeginCmd (mainRtTrace o) = 1 ∧
    countEv isEndCmd (mainRtTrace o) = 1 ∧
    countEv isSubmit (mainRtTrace o) = 1 ∧
    countEv isWaitIdle (mainRtTrace o) = 1 ∧
    countEv isBeginCmd (beforeEnd (mainRtTrace o)) = 1 ∧
    countEv isEndCmd (beforeSubmit (mainRtTrace o)) = 1 ∧
    countEv isSubmit (beforeWait (mainRtTrace o)) = 1 ∧
    countEv (isMapOf rtReadbackId) (beforeWait (mainRtTrace o)) = 0 ∧
    countEv (isHostReadOf rtReadbackId) (beforeWait (mainRtTrace o)) = 0 ∧
    countEv (isHostReadOf rtReadbackId) (mainRtTrace o) = 5 ∧
    countEv isBeginCmd (mainLsiTrace o) = 1 ∧
    countEv isEndCmd (mainLsiTrace o) = 1 ∧
    countEv isSubmit (mainLsiTrace o) = 1 ∧
    countEv isWaitIdle (mainLsiTrace o) = 1 ∧
    countEv isBeginCmd (beforeEnd (mainLsiTrace o)) = 1 ∧
    countEv isEndCmd (beforeSubmit (mainLsiTrace o)) = 1 ∧
    countEv isSubmit (beforeWait (mainLsiTrace o)) = 1 ∧
    countEv (isMapOf lsiHitsId) (beforeWait (mainLsiTrace o)) = 0 ∧
    countEv (isHostReadOf lsiHitsId) (beforeWait (mainLsiTrace o)) = 0 ∧
    countEv (isHostReadOf lsiCounterId) (beforeWait (mainLsiTrace o)) = 0 ∧
    countEv (isMapOf lsiCounterId) (beforeWait (mainLsiTrace o)) = 1 ∧
    countEv (isHostReadOf lsiCounterId) (mainLsiTrace o) = 1 ∧
    countEv (isHostReadOf lsiHitsId) (mainLsiTrace o) = 1 := by
  rw [mainRtTrace_eq, mainLsiTrace_eq]
  exact ⟨rfl, rfl, rfl, rfl, rfl, rfl, rfl, rfl, rfl, rfl, rfl, rfl, rfl, rfl,
         rfl, rfl, rfl, rfl, rfl, rfl, rfl, rfl, rfl⟩

/-- Claim C6: when the caller opts in to device addressing, `createBuffer`
sets the address-capability usage bit (bit 17) at creation, chains the
address-enable allocation flag, and queries the device address exactly once,
after binding; when the caller does not opt in, the allocation carries no
flags, no address query happens, the returned address field is zero, and the
created usage equals the caller's usage (which at every such call site of
the programs lacks bit 17). -/
theorem claim_C6_createBuffer_addressing (o : Oracle) (n size usage memProps : Nat) :
    ((createdUsages (createBuffer o n size usage memProps true).2.2).all
        (fun u => u.testBit 17) = true ∧
     allocFlagsOf (createBuffer o n size usage memProps true).2.2 =
       [ALLOC_DEVICE_ADDRESS] ∧
     countEv isGetBufAddr (createBuffer o n size usage memProps true).2.2 = 1 ∧
     occursBeforeB isBindBufMem isGetBufAddr
       (createBuffer o n size usage memProps true).2.2 = true ∧
     (createBuffer o n size usage memProps true).1.addr = o.bufAddr (n + 1)) ∧
    (allocFlagsOf (createBuffer o n size usage memProps false).2.2 = [0] ∧
     countEv isGetBufAddr (createBuffer o n size usage memProps false).2.2 = 0 ∧
     (createBuffer o n size usage memProps false).1.addr = 0 ∧
     createdUsages (createBuffer o n size usage memProps false).2.2 = [usage] ∧
     (usage.testBit 17 = false →
       (createdUsages (createBuffer o n size usage memProps false).2.2).all
         (fun u => !u.testBit 17) = true)) ∧
    (∀ c, c ∈ createBufferCallSites → c.deviceAddress = false →
      c.usage.testBit 17 = false) := by
  have h17 : Nat.testBit USAGE_SHADER_DEVICE_ADDRESS 17 = true := by decide
  refine ⟨⟨?_, rfl, rfl, rfl, rfl⟩, ⟨rfl, rfl, rfl, ?_, ?_⟩, ?_⟩
  · simp [createBuffer, createdUsages, Nat.testBit_or, h17]
  · simp [createBuffer, createdUsages]
  · intro h
    simp [createBuffer, createdUsages, h]
  · intro c hc hda
    fin_cases hc <;> simp_all <;> decide

/-- Witness for claim C6: a non-opting call (the hit-counter buffer of
03_rt_lsi, usage `STORAGE | TRANSFER_SRC`) creates the buffer without the
address-capability bit. -/
theorem claim_C6_witness :
    (createdUsages (createBuffer testOracle 12 4
        (USAGE_STORAGE_BUFFER ||| USAGE_TRANSFER_SRC) MEM_HOST_VC false).2.2).all
      (fun u => !u.testBit 17) = true :=
  ((claim_C6_createBuffer_addressing testOracle 12 4
      (USAGE_STORAGE_BUFFER ||| USAGE_TRANSFER_SRC) MEM_HOST_VC).2.1.2.2.2.2
    (by decide))

/-- Claim C7: shader binary loading fails fatally exactly when the file is
absent or its byte length is not a multiple of 4, and otherwise returns the
contents as `length / 4` 32-bit words (serialising the words back gives the
original bytes); `readSpirvU32` of main.cpp behaves identically. -/
theorem claim_C7_loadSpv (f : Option (List Nat)) :
    (loadSpv f = none ↔ f = none ∨ ∃ bs, f = some bs ∧ bs.length % 4 ≠ 0) ∧
    (∀ bs, f = some bs → bs.length % 4 = 0 →
      ∃ ws, loadSpv f = some ws ∧ ws.length = bs.length / 4 ∧
        ((∀ b ∈ bs, b < 256) → wordsBytes ws = bs)) ∧
    readSpirvU32 f = loadSpv f := by
  refine ⟨?_, ?_, ?_⟩
  · cases f with
    | none => simp [loadSpv]
    | some bs =>
      by_cases h : bs.length % 4 = 0
      · simp [loadSpv, h]
      · simp [loadSpv, h]
  · intro bs hf hlen
    subst hf
    exact ⟨toWords bs, by simp [loadSpv, hlen], toWords_length bs hlen,
           fun hb => wordsBytes_toWords bs hb hlen⟩
  · cases f with
    | none => rfl
    | some bs => rfl

/-- Witness for claim C7: an 8-byte file yields its two words back. -/
theorem claim_C7_witness :
    ∃ ws, loadSpv (some [1, 0, 0, 0, 2, 0, 0, 0]) = some ws ∧
      ws.length = ([1, 0, 0, 0, 2, 0, 0, 0] : List Nat).length / 4 ∧
      ((∀ b ∈ ([1, 0, 0, 0, 2, 0, 0, 0] : List Nat), b < 256) →
        wordsBytes ws = [1, 0, 0, 0, 2, 0, 0, 0]) :=
  (claim_C7_loadSpv (some [1, 0, 0, 0, 2, 0, 0, 0])).2.1
    [1, 0, 0, 0, 2, 0, 0, 0] rfl (by decide)

/-- Claim C8: every BLAS geometry description carries geometry flags 0
(non-opaque, any-hit not skipped), and the single TLAS instance record
carries visibility mask `0xFF` and the facing-culling-disable flag
(identical in both RT samples, which share `createTLAS_OneInstance`). -/
theorem claim_C8_geometry_flags (o : Oracle) (sizes sizesA sizesT : SizeInfo)
    (n m p : Nat) (vbo : Buffer) (vc vs : Nat) (ibo : Buffer) (ic : Nat)
    (aabbBuf : Buffer) (ac blasAddr : Nat) :
    geomsOf (createBLAS_Triangles o sizes n vbo vc vs ibo ic).2.2 =
      [(GEOM_TRIANGLES, 0)] ∧
    geomsOf (createBLAS_AABBs o sizesA m aabbBuf ac).2.2 = [(GEOM_AABBS, 0)] ∧
    geomsOf (createTLAS_OneInstance o sizesT p blasAddr).2.2 =
      [(GEOM_INSTANCES, 0)] ∧
    instWritesOf (createTLAS_OneInstance o sizesT p blasAddr).2.2 =
      [(0xFF, INST_CULL_DISABLE, blasAddr)] := by
  refine ⟨?_, ?_, ?_, ?_⟩ <;>
    simp [createBLAS_Triangles_eq, createBLAS_AABBs_eq, createTLAS_OneInstance_eq,
      geomsOf, instWritesOf, GEOM_TRIANGLES, GEOM_AABBS, GEOM_INSTANCES, INST_CULL_DISABLE]

/-- Claim C9: after the wait, the host iterates exactly `min(counter, 1024)`
hit records; the clamp happens before any record is read, so no record past
the capacity (byte size `hitRecordBytes * MAX_HITS` of the allocation) is
ever read, and no hit-record or counter read happens before the wait. -/
theorem claim_C9_readback_clamped (c : Nat) :
    (lsiReadbackIdx c).length = min c MAX_HITS ∧
    (∀ i, i ∈ lsiReadbackIdx c → i < MAX_HITS ∧
      (i + 1) * hitRecordBytes ≤ hitRecordBytes * MAX_HITS) ∧
    (∀ o : Oracle, countEv (isHostReadOf lsiHitsId) (beforeWait (mainLsiTrace o)) = 0 ∧
      countEv (isHostReadOf lsiCounterId) (beforeWait (mainLsiTrace o)) = 0) := by
  refine ⟨?_, ?_, ?_⟩
  · simp [lsiReadbackIdx]
  · intro i hi
    simp only [lsiReadbackIdx, List.mem_range] at hi
    have h1 : MAX_HITS = 1024 := rfl
    have h2 : hitRecordBytes = 16 := rfl
    constructor
    · omega
    · rw [h1, h2]; omega
  · intro o
    constructor <;> (rw [mainLsiTrace_eq]; rfl)

/-- Witness for claim C9 at counter value 7 (record index 3 is read and lies
within capacity) and the concrete test device. -/
theorem claim_C9_witness :
    (lsiReadbackIdx 7).length = min 7 MAX_HITS ∧
    (3 < MAX_HITS ∧ (3 + 1) * hitRecordBytes ≤ hitRecordBytes * MAX_HITS) ∧
    countEv (isHostReadOf lsiHitsId) (beforeWait (mainLsiTrace testOracle)) = 0 :=
  ⟨(claim_C9_readback_clamped 7).1,
   (claim_C9_readback_clamped 7).2.1 3 (by decide),
   ((claim_C9_readback_clamped 7).2.2 testOracle).1⟩

/-- Claim C10: `destroyBuffer`, `destroyImage` and `destroyAccel` destroy
only non-null handles and reset the record to its zero value, so a destroy
of a default record and a second destroy of the same record perform no
destruction and leave the record zeroed. -/
theorem claim_C10_destroy_idempotent (b : Buffer) (im : Image) (a : Accel) :
    destroyBuffer ({} : Buffer) = ([], {}) ∧
    (destroyBuffer b).2 = {} ∧
    destroyBuffer (destroyBuffer b).2 = ([], {}) ∧
    destroyImage ({} : Image) = ([], {}) ∧
    (destroyImage im).2 = {} ∧
    destroyImage (destroyImage im).2 = ([], {}) ∧
    destroyAccel ({} : Accel) = ([], {}) ∧
    (destroyAccel a).2 = {} ∧
    destroyAccel (destroyAccel a).2 = ([], {}) :=
  ⟨rfl, rfl, rfl, rfl, rfl, rfl, rfl, rfl, rfl⟩

end VkPrimer
